import Mathlib

/-!
Verification of the sentiment-classification demo of the
`keras-with-openvino-backend` notebook.

The notebook's only original logic is two Python functions in the
"Sentiment Classification Example" cell:

* `get_sentiment(text)`: calls `bert.predict([text])`, applies
  `tf.nn.softmax(predictions, axis=1)`, takes
  `np.argmax(probabilities, axis=1)[0]`, and returns `"positive"` when that
  index equals 1 and `"negative"` otherwise.

* `display_results(results)`: given a list of records with `"Sentence"` and
  `"Sentiment"` string fields, computes the maximum length of each field,
  prints a header line `f"{'Sentence':<{w1}}  {'Sentiment':<{w2}}"`, a
  separator `"-" * (w1 + w2 + 4)`, and one row
  `f"{sentence:<{w1}}  {sentiment:<{w2}}"` per record.

We embed these shallowly: the external `bert.predict` is a parameter, the
printed output is collected as a list of lines, Python's `max` over an empty
sequence is an `Except.error` (it raises `ValueError`), and Python's
left-justifying format specifier `:<{w}` is `ljust` below (it pads with
spaces and never truncates).
-/

/-- One entry of the Python `results` list: a dict with the two string keys
`"Sentence"` and `"Sentiment"`. -/
structure SentimentRecord where
  Sentence : String
  Sentiment : String
deriving DecidableEq

/-- Python's left-justifying format `f"{s:<{w}}"` (equivalently `s.ljust(w)`):
pad `s` with spaces on the right up to width `w`; a string already at least
`w` long is returned unchanged (padding never truncates). -/
def ljust (s : String) (w : Nat) : String :=
  s ++ String.mk (List.replicate (w - s.length) ' ')

/-- Python's builtin `max` over a list of numbers: raises
`ValueError: max() arg is an empty sequence` on an empty argument, otherwise
returns the maximum. -/
def pyMax (xs : List Nat) : Except String Nat :=
  match xs with
  | [] => Except.error "max() arg is an empty sequence"
  | x :: rest => Except.ok (rest.foldl Nat.max x)

/-- The header line printed by `display_results`:
`f"{'Sentence':<{w1}}  {'Sentiment':<{w2}}"`. -/
def headerLine (w1 w2 : Nat) : String :=
  ljust "Sentence" w1 ++ "  " ++ ljust "Sentiment" w2

/-- The separator line printed by `display_results`:
`"-" * (w1 + w2 + 4)`. -/
def sepLine (w1 w2 : Nat) : String :=
  String.mk (List.replicate (w1 + w2 + 4) '-')

/-- One data row printed by `display_results`:
`f"{sentence:<{w1}}  {sentiment:<{w2}}"`. -/
def rowLine (r : SentimentRecord) (w1 w2 : Nat) : String :=
  ljust r.Sentence w1 ++ "  " ++ ljust r.Sentiment w2

/-- The notebook's `display_results(results)`, with the printed lines
collected in order: header, separator, then one row per record. The two
`max(...)` calls raise on an empty `results`, modelled through `Except`. -/
def display_results (results : List SentimentRecord) : Except String (List String) := do
  let max_sentence_length ← pyMax (results.map (fun r => r.Sentence.length))
  let max_sentiment_length ← pyMax (results.map (fun r => r.Sentiment.length))
  return headerLine max_sentence_length max_sentiment_length ::
    sepLine max_sentence_length max_sentiment_length ::
    results.map (fun r => rowLine r max_sentence_length max_sentiment_length)

/-- The value the Python variable `max_sentence_length` holds inside
`display_results` on a non-empty list (for a non-empty list of naturals,
`max` coincides with a left fold of `Nat.max` started at `0`). -/
def maxSentenceLen (results : List SentimentRecord) : Nat :=
  (results.map (fun r => r.Sentence.length)).foldl Nat.max 0

/-- The value the Python variable `max_sentiment_length` holds inside
`display_results` on a non-empty list. -/
def maxSentimentLen (results : List SentimentRecord) : Nat :=
  (results.map (fun r => r.Sentiment.length)).foldl Nat.max 0

/-- Tail of `np.argmax`: scan the remaining entries keeping the index `best`
of the first maximum seen so far (`bestVal`); a later entry replaces it only
when strictly greater, matching NumPy's first-occurrence tie-breaking. `i` is
the index of the head of the remaining list. -/
def argmaxGo {α : Type} [LinearOrder α] (i best : Nat) (bestVal : α) : List α → Nat
  | [] => best
  | y :: ys => if bestVal < y then argmaxGo (i + 1) i y ys else argmaxGo (i + 1) best bestVal ys

/-- `np.argmax` on a one-dimensional array: the index of the first occurrence
of the maximum entry (`0` on an empty list, where NumPy would raise). -/
def argmaxFirst {α : Type} [LinearOrder α] : List α → Nat
  | [] => 0
  | x :: rest => argmaxGo 1 0 x rest

/-- `tf.nn.softmax` applied to one row, over exact real arithmetic:
entry `t` becomes `exp t` divided by the sum of the exponentials of the row. -/
noncomputable def softmaxRow (v : List ℝ) : List ℝ :=
  v.map (fun t => Real.exp t / (v.map Real.exp).sum)

/-- `tf.nn.softmax(predictions, axis=1)`: softmax each row of the matrix. -/
noncomputable def softmaxAxis1 (m : List (List ℝ)) : List (List ℝ) :=
  m.map softmaxRow

/-- The notebook's `get_sentiment(text)`. The external `bert.predict([text])`
is abstracted as the parameter `predict`, returning the matrix of logits
(one row per input, here a single input). The body mirrors the Python:
softmax along axis 1, `np.argmax(..., axis=1)[0]`, then the label. -/
noncomputable def get_sentiment (predict : String → List (List ℝ)) (text : String) : String :=
  let predictions := predict text
  let probabilities := softmaxAxis1 predictions
  let sentiment := (probabilities.map argmaxFirst).getD 0 0
  let sentiment_label := if sentiment = 1 then "positive" else "negative"
  sentiment_label

/-- The `get_sentiment` pipeline with each external call modelled as fallible
(`Except`), mirroring that the Python body is a straight-line sequence with
no `try`/`except`: any exception raised by `predict`, the softmax step, or
the argmax step aborts the function. -/
def get_sentimentExc (predictE : String → Except String (List (List ℝ)))
    (softmaxE : List (List ℝ) → Except String (List (List ℝ)))
    (argmaxE : List (List ℝ) → Except String (List Nat))
    (text : String) : Except String String := do
  let predictions ← predictE text
  let probabilities ← softmaxE predictions
  let sentiments ← argmaxE probabilities
  let sentiment := sentiments.getD 0 0
  return if sentiment = 1 then "positive" else "negative"

/-! ## Basic lemmas about the embedding -/

lemma length_ljust (s : String) (w : Nat) : (ljust s w).length = Nat.max s.length w := by
  have h : (ljust s w).length = s.length + (w - s.length) := by
    simp [ljust, String.length_append]
  rcases Nat.le_total s.length w with hle | hle
  · have hm : Nat.max s.length w = w := Nat.max_eq_right hle
    rw [h, hm]; omega
  · have hm : Nat.max s.length w = s.length := Nat.max_eq_left hle
    rw [h, hm]; omega

lemma data_ljust (s : String) (w : Nat) :
    (ljust s w).data = s.data ++ List.replicate (w - s.length) ' ' := by
  simp [ljust]

lemma pyMax_eq_ok (l : List Nat) (h : l ≠ []) : pyMax l = Except.ok (l.foldl Nat.max 0) := by
  cases l with
  | nil => exact absurd rfl h
  | cons x rest => simp [pyMax, List.foldl]

lemma le_foldl_max (a : Nat) (l : List Nat) : a ≤ l.foldl Nat.max a := by
  induction l generalizing a with
  | nil => exact le_rfl
  | cons x xs ih => exact le_trans (Nat.le_max_left a x) (ih (Nat.max a x))

lemma mem_le_foldl_max {x : Nat} {l : List Nat} (h : x ∈ l) (a : Nat) :
    x ≤ l.foldl Nat.max a := by
  induction l generalizing a with
  | nil => cases h
  | cons y ys ih =>
    cases h with
    | head => exact le_trans (Nat.le_max_right a x) (le_foldl_max _ _)
    | tail _ hmem => exact ih hmem (Nat.max a y)

lemma display_results_eq (results : List SentimentRecord) (h : results ≠ []) :
    display_results results =
      Except.ok (headerLine (maxSentenceLen results) (maxSentimentLen results) ::
        sepLine (maxSentenceLen results) (maxSentimentLen results) ::
        results.map (fun r => rowLine r (maxSentenceLen results) (maxSentimentLen results))) := by
  have h1 : results.map (fun r => r.Sentence.length) ≠ [] := by
    simpa using h
  have h2 : results.map (fun r => r.Sentiment.length) ≠ [] := by
    simpa using h
  simp only [display_results, pyMax_eq_ok _ h1, pyMax_eq_ok _ h2, maxSentenceLen, maxSentimentLen]
  rfl

lemma sentence_le_maxSentenceLen {r : SentimentRecord} {results : List SentimentRecord}
    (h : r ∈ results) : r.Sentence.length ≤ maxSentenceLen results :=
  mem_le_foldl_max (List.mem_map_of_mem (fun x => x.Sentence.length) h) 0

lemma sentiment_le_maxSentimentLen {r : SentimentRecord} {results : List SentimentRecord}
    (h : r ∈ results) : r.Sentiment.length ≤ maxSentimentLen results :=
  mem_le_foldl_max (List.mem_map_of_mem (fun x => x.Sentiment.length) h) 0

lemma ljust_extends (s : String) (w : Nat) : s.data <+: (ljust s w).data := by
  rw [data_ljust]
  exact List.prefix_append _ _

lemma headerLine_data (w1 w2 : Nat) :
    (headerLine w1 w2).data =
      (ljust "Sentence" w1).data ++ ("  ".data ++ (ljust "Sentiment" w2).data) := by
  simp [headerLine, String.data_append, List.append_assoc]

lemma rowLine_data (r : SentimentRecord) (w1 w2 : Nat) :
    (rowLine r w1 w2).data =
      (ljust r.Sentence w1).data ++ ("  ".data ++ (ljust r.Sentiment w2).data) := by
  simp [rowLine, String.data_append, List.append_assoc]

lemma argmaxGo_map {α β : Type} [LinearOrder α] [LinearOrder β] {f : α → β} (hf : StrictMono f)
    (l : List α) : ∀ (i best : Nat) (b : α),
    argmaxGo i best (f b) (l.map f) = argmaxGo i best b l := by
  induction l with
  | nil => intro i best b; rfl
  | cons y ys ih =>
    intro i best b
    by_cases hby : b < y
    · simp [argmaxGo, hf.lt_iff_lt, hby, ih]
    · simp [argmaxGo, hf.lt_iff_lt, hby, ih]

lemma argmaxFirst_map {α β : Type} [LinearOrder α] [LinearOrder β] {f : α → β}
    (hf : StrictMono f) (l : List α) : argmaxFirst (l.map f) = argmaxFirst l := by
  cases l with
  | nil => rfl
  | cons x rest => simp [argmaxFirst, argmaxGo_map hf]

lemma argmax_softmaxRow (v : List ℝ) : argmaxFirst (softmaxRow v) = argmaxFirst v := by
  cases v with
  | nil => rfl
  | cons x xs =>
    have hpos : (0 : ℝ) < ((x :: xs).map Real.exp).sum := by
      apply List.sum_pos
      · intro y hy
        obtain ⟨z, _, rfl⟩ := List.mem_map.mp hy
        exact Real.exp_pos z
      · simp
    have hmono : StrictMono (fun t : ℝ => Real.exp t / ((x :: xs).map Real.exp).sum) :=
      Real.exp_strictMono.div_const hpos
    exact argmaxFirst_map hmono (x :: xs)

/-! ## Claims -/

/-- **C1.** For every input text, the sentiment label returned by
`get_sentiment` is `"positive"` when the argmax index of the two-class
probability vector (row 0 of the softmaxed predictions) equals 1, and
`"negative"` otherwise. -/
theorem get_sentiment_label_rule (predict : String → List (List ℝ)) (text : String) :
    get_sentiment predict text =
      if argmaxFirst (softmaxRow ((predict text).getD 0 [])) = 1 then "positive"
      else "negative" := by
  cases hp : predict text with
  | nil => simp [get_sentiment, softmaxAxis1, hp, softmaxRow, argmaxFirst]
  | cons p ps => simp [get_sentiment, softmaxAxis1, hp]

/-- **C6.** Post-processing order invariance: over exact real arithmetic,
the argmax of a softmaxed row equals the argmax of the raw logits, so the
softmax step in `get_sentiment` never changes the chosen class. -/
theorem softmax_preserves_argmax (v : List ℝ) :
    argmaxFirst (softmaxRow v) = argmaxFirst v :=
  argmax_softmaxRow v

lemma except_bind_ok {ε α β : Type} (a : α) (k : α → Except ε β) :
    (Except.ok a >>= k) = k a := rfl

lemma except_bind_error {ε α β : Type} (e : ε) (k : α → Except ε β) :
    ((Except.error e : Except ε α) >>= k) = Except.error e := rfl

lemma except_map_error {ε α β : Type} (f : α → β) (e : ε) :
    (f <$> (Except.error e : Except ε α)) = (Except.error e : Except ε β) := rfl

/-- **C7.** `get_sentiment` contains no catch or recovery branch: when the
predict call, the softmax step, or the argmax step raises, the same exception
propagates unchanged and no sentiment label is returned. -/
theorem get_sentiment_error_propagation
    (predictE : String → Except String (List (List ℝ)))
    (softmaxE : List (List ℝ) → Except String (List (List ℝ)))
    (argmaxE : List (List ℝ) → Except String (List Nat))
    (text : String) (e : String) :
    (predictE text = Except.error e →
      get_sentimentExc predictE softmaxE argmaxE text = Except.error e) ∧
    (∀ p, predictE text = Except.ok p → softmaxE p = Except.error e →
      get_sentimentExc predictE softmaxE argmaxE text = Except.error e) ∧
    (∀ p q, predictE text = Except.ok p → softmaxE p = Except.ok q →
      argmaxE q = Except.error e →
      get_sentimentExc predictE softmaxE argmaxE text = Except.error e) := by
  refine ⟨fun h1 => ?_, fun p h1 h2 => ?_, fun p q h1 h2 h3 => ?_⟩ <;>
    simp only [get_sentimentExc, h1, except_bind_ok, except_bind_error, *,
      except_map_error]

/-- Witness for C7: a concrete predict failure surfaces unchanged. -/
theorem get_sentiment_error_propagation_witness :
    get_sentimentExc (fun _ => Except.error "boom")
      (fun _ => Except.ok []) (fun _ => Except.ok []) "hello" = Except.error "boom" :=
  (get_sentiment_error_propagation (fun _ => Except.error "boom")
    (fun _ => Except.ok []) (fun _ => Except.ok []) "hello" "boom").1 rfl

/-- **C8.** `display_results` is deterministic: it is a function of its
argument alone, so two runs on equal record lists print identical lines. -/
theorem display_results_deterministic (rs1 rs2 : List SentimentRecord) (h : rs1 = rs2) :
    display_results rs1 = display_results rs2 := by
  rw [h]

/-- Witness for C8 at a concrete record list. -/
theorem display_results_deterministic_witness :
    display_results [{ Sentence := "a", Sentiment := "negative" }] =
      display_results [{ Sentence := "a", Sentiment := "negative" }] :=
  display_results_deterministic
    [{ Sentence := "a", Sentiment := "negative" }]
    [{ Sentence := "a", Sentiment := "negative" }] rfl

/-- **C9.** On an empty record list, `display_results` raises (Python:
`ValueError: max() arg is an empty sequence` from the first `max` call)
before printing anything. -/
theorem display_results_empty_raises :
    display_results [] = Except.error "max() arg is an empty sequence" := rfl

/-- **C3.** For every non-empty record list, the separator line printed by
`display_results` (the second printed line) consists of dashes, and its
length equals (maximum sentence length) + (maximum sentiment length) + 4;
the two maxima are the values returned by the two `max` calls. -/
theorem sepLine_spec (results : List SentimentRecord) (h : results ≠ []) :
    ∃ w1 w2 : Nat,
      pyMax (results.map (fun r => r.Sentence.length)) = Except.ok w1 ∧
      pyMax (results.map (fun r => r.Sentiment.length)) = Except.ok w2 ∧
      display_results results =
        Except.ok (headerLine w1 w2 :: sepLine w1 w2 ::
          results.map (fun r => rowLine r w1 w2)) ∧
      (sepLine w1 w2).data = List.replicate (w1 + w2 + 4) '-' ∧
      (sepLine w1 w2).length = w1 + w2 + 4 := by
  refine ⟨maxSentenceLen results, maxSentimentLen results,
    pyMax_eq_ok _ (by simpa using h), pyMax_eq_ok _ (by simpa using h),
    display_results_eq results h, rfl, ?_⟩
  simp [sepLine]

/-- Witness for C3 at a concrete one-record list. -/
theorem sepLine_spec_witness :
    ∃ w1 w2 : Nat,
      pyMax ([({ Sentence := "x", Sentiment := "positive" } : SentimentRecord)].map
        (fun r => r.Sentence.length)) = Except.ok w1 ∧
      pyMax ([({ Sentence := "x", Sentiment := "positive" } : SentimentRecord)].map
        (fun r => r.Sentiment.length)) = Except.ok w2 ∧
      display_results [{ Sentence := "x", Sentiment := "positive" }] =
        Except.ok (headerLine w1 w2 :: sepLine w1 w2 ::
          [({ Sentence := "x", Sentiment := "positive" } : SentimentRecord)].map
            (fun r => rowLine r w1 w2)) ∧
      (sepLine w1 w2).data = List.replicate (w1 + w2 + 4) '-' ∧
      (sepLine w1 w2).length = w1 + w2 + 4 :=
  sepLine_spec [{ Sentence := "x", Sentiment := "positive" }] (List.cons_ne_nil _ _)

/-- **C5.** For every non-empty record list, each data row printed by
`display_results` has its Sentence and Sentiment fields left-justified and
padded to exactly the computed column widths: since each record's field is
at most the maximum, the padded field occupies exactly the column width. -/
theorem row_padding_exact (results : List SentimentRecord) (h : results ≠ []) :
    ∃ w1 w2 : Nat,
      pyMax (results.map (fun r => r.Sentence.length)) = Except.ok w1 ∧
      pyMax (results.map (fun r => r.Sentiment.length)) = Except.ok w2 ∧
      display_results results =
        Except.ok (headerLine w1 w2 :: sepLine w1 w2 ::
          results.map (fun r => rowLine r w1 w2)) ∧
      ∀ r ∈ results,
        rowLine r w1 w2 = ljust r.Sentence w1 ++ "  " ++ ljust r.Sentiment w2 ∧
        (ljust r.Sentence w1).length = w1 ∧
        (ljust r.Sentiment w2).length = w2 := by
  refine ⟨maxSentenceLen results, maxSentimentLen results,
    pyMax_eq_ok _ (by simpa using h), pyMax_eq_ok _ (by simpa using h),
    display_results_eq results h, fun r hr => ⟨rfl, ?_, ?_⟩⟩
  · rw [length_ljust]
    exact Nat.max_eq_right (sentence_le_maxSentenceLen hr)
  · rw [length_ljust]
    exact Nat.max_eq_right (sentiment_le_maxSentimentLen hr)

/-- Witness for C5 at a concrete one-record list. -/
theorem row_padding_exact_witness :
    ∃ w1 w2 : Nat,
      pyMax ([({ Sentence := "x", Sentiment := "positive" } : SentimentRecord)].map
        (fun r => r.Sentence.length)) = Except.ok w1 ∧
      pyMax ([({ Sentence := "x", Sentiment := "positive" } : SentimentRecord)].map
        (fun r => r.Sentiment.length)) = Except.ok w2 ∧
      display_results [{ Sentence := "x", Sentiment := "positive" }] =
        Except.ok (headerLine w1 w2 :: sepLine w1 w2 ::
          [({ Sentence := "x", Sentiment := "positive" } : SentimentRecord)].map
            (fun r => rowLine r w1 w2)) ∧
      ∀ r ∈ [({ Sentence := "x", Sentiment := "positive" } : SentimentRecord)],
        rowLine r w1 w2 = ljust r.Sentence w1 ++ "  " ++ ljust r.Sentiment w2 ∧
        (ljust r.Sentence w1).length = w1 ∧
        (ljust r.Sentiment w2).length = w2 :=
  row_padding_exact [{ Sentence := "x", Sentiment := "positive" }] (List.cons_ne_nil _ _)

/-- **C2 (counterexample).** The claim "each header column occupies exactly
the maximum field length" fails: on the singleton record ("x", "positive")
the computed widths are 1 and 8, but the header fields occupy 8 and 9
characters, because the format padding never truncates the labels
"Sentence" (8 chars) and "Sentiment" (9 chars). -/
theorem header_width_cex :
    pyMax ([({ Sentence := "x", Sentiment := "positive" } : SentimentRecord)].map
      (fun r => r.Sentence.length)) = Except.ok 1 ∧
    pyMax ([({ Sentence := "x", Sentiment := "positive" } : SentimentRecord)].map
      (fun r => r.Sentiment.length)) = Except.ok 8 ∧
    display_results [{ Sentence := "x", Sentiment := "positive" }] =
      Except.ok [headerLine 1 8, sepLine 1 8,
        rowLine { Sentence := "x", Sentiment := "positive" } 1 8] ∧
    (ljust "Sentence" 1).length ≠ 1 ∧
    (ljust "Sentiment" 8).length ≠ 8 := by
  refine ⟨rfl, rfl, rfl, by decide, by decide⟩

/-- **C2 (amended).** For every non-empty record list, the printed header is
the two labels left-justified to the computed column widths; each header
field occupies `max(width, label length)` characters — exactly the column
width whenever the width is at least the label's own length (8 for
"Sentence", 9 for "Sentiment"), and the label's length otherwise, since the
format padding never truncates. -/
theorem header_width_amended (results : List SentimentRecord) (h : results ≠ []) :
    ∃ w1 w2 : Nat,
      pyMax (results.map (fun r => r.Sentence.length)) = Except.ok w1 ∧
      pyMax (results.map (fun r => r.Sentiment.length)) = Except.ok w2 ∧
      display_results results =
        Except.ok (headerLine w1 w2 :: sepLine w1 w2 ::
          results.map (fun r => rowLine r w1 w2)) ∧
      headerLine w1 w2 = ljust "Sentence" w1 ++ "  " ++ ljust "Sentiment" w2 ∧
      (ljust "Sentence" w1).length = Nat.max 8 w1 ∧
      (ljust "Sentiment" w2).length = Nat.max 9 w2 := by
  refine ⟨maxSentenceLen results, maxSentimentLen results,
    pyMax_eq_ok _ (by simpa using h), pyMax_eq_ok _ (by simpa using h),
    display_results_eq results h, rfl, ?_, ?_⟩
  · rw [length_ljust]
    rfl
  · rw [length_ljust]
    rfl

/-- Witness for the amended C2 at a concrete one-record list. -/
theorem header_width_amended_witness :
    ∃ w1 w2 : Nat,
      pyMax ([({ Sentence := "x", Sentiment := "positive" } : SentimentRecord)].map
        (fun r => r.Sentence.length)) = Except.ok w1 ∧
      pyMax ([({ Sentence := "x", Sentiment := "positive" } : SentimentRecord)].map
        (fun r => r.Sentiment.length)) = Except.ok w2 ∧
      display_results [{ Sentence := "x", Sentiment := "positive" }] =
        Except.ok (headerLine w1 w2 :: sepLine w1 w2 ::
          [({ Sentence := "x", Sentiment := "positive" } : SentimentRecord)].map
            (fun r => rowLine r w1 w2)) ∧
      headerLine w1 w2 = ljust "Sentence" w1 ++ "  " ++ ljust "Sentiment" w2 ∧
      (ljust "Sentence" w1).length = Nat.max 8 w1 ∧
      (ljust "Sentiment" w2).length = Nat.max 9 w2 :=
  header_width_amended [{ Sentence := "x", Sentiment := "positive" }] (List.cons_ne_nil _ _)

/-- **C4 (counterexample).** On the singleton record ("x", "positive") the
data row actually printed is `"x  positive"` (field "x" padded to width 1,
the two-space column gap, then "positive" padded to width 8), not the
claimed `"x positive"`. -/
theorem single_record_row_cex :
    display_results [{ Sentence := "x", Sentiment := "positive" }] =
      Except.ok ["Sentence  Sentiment", "-------------", "x  positive"] ∧
    ("x  positive" : String) ≠ "x positive" := by
  refine ⟨rfl, by decide⟩

/-- **C4 (amended).** On the singleton record ("x", "positive"),
`display_results` computes column widths 1 and 8 and prints the data row
`"x  positive"`: "x" left-justified to width 1, the fixed two-space gap, and
"positive" left-justified to width 8. -/
theorem single_record_display :
    pyMax ([({ Sentence := "x", Sentiment := "positive" } : SentimentRecord)].map
      (fun r => r.Sentence.length)) = Except.ok 1 ∧
    pyMax ([({ Sentence := "x", Sentiment := "positive" } : SentimentRecord)].map
      (fun r => r.Sentiment.length)) = Except.ok 8 ∧
    rowLine { Sentence := "x", Sentiment := "positive" } 1 8 =
      ljust "x" 1 ++ "  " ++ ljust "positive" 8 ∧
    display_results [{ Sentence := "x", Sentiment := "positive" }] =
      Except.ok ["Sentence  Sentiment", "-------------", "x  positive"] :=
  ⟨rfl, rfl, rfl, rfl⟩

/-- **C10.** `display_results` never shortens a string: left-justification
only pads. Every record's full Sentence is a prefix of its printed row and
its full Sentiment a contiguous substring of it, the full labels "Sentence"
and "Sentiment" appear in the printed header, and in general a string is
always a prefix of its padding `ljust s w`, also when it is longer than `w`. -/
theorem no_truncation (results : List SentimentRecord) (h : results ≠ [])
    (s : String) (w : Nat) :
    s.data <+: (ljust s w).data ∧
    ∃ w1 w2 : Nat,
      display_results results =
        Except.ok (headerLine w1 w2 :: sepLine w1 w2 ::
          results.map (fun r => rowLine r w1 w2)) ∧
      ("Sentence" : String).data <+: (headerLine w1 w2).data ∧
      ("Sentiment" : String).data <:+: (headerLine w1 w2).data ∧
      ∀ r ∈ results,
        r.Sentence.data <+: (rowLine r w1 w2).data ∧
        r.Sentiment.data <:+: (rowLine r w1 w2).data := by
  refine ⟨ljust_extends s w, maxSentenceLen results, maxSentimentLen results,
    display_results_eq results h, ?_, ?_, fun r hr => ⟨?_, ?_⟩⟩
  · rw [headerLine_data]
    exact (ljust_extends _ _).trans (List.prefix_append _ _)
  · refine ⟨(ljust "Sentence" (maxSentenceLen results)).data ++ ("  " : String).data,
      List.replicate (maxSentimentLen results - ("Sentiment" : String).length) ' ', ?_⟩
    rw [headerLine_data]
    simp [data_ljust, List.append_assoc]
  · rw [rowLine_data]
    exact (ljust_extends _ _).trans (List.prefix_append _ _)
  · refine ⟨(ljust r.Sentence (maxSentenceLen results)).data ++ ("  " : String).data,
      List.replicate (maxSentimentLen results - r.Sentiment.length) ' ', ?_⟩
    rw [rowLine_data]
    simp [data_ljust, List.append_assoc]

/-- Witness for C10 at a concrete one-record list and a concrete padding. -/
theorem no_truncation_witness :
    ("hello" : String).data <+: (ljust "hello" 3).data ∧
    ∃ w1 w2 : Nat,
      display_results [{ Sentence := "x", Sentiment := "positive" }] =
        Except.ok (headerLine w1 w2 :: sepLine w1 w2 ::
          [({ Sentence := "x", Sentiment := "positive" } : SentimentRecord)].map
            (fun r => rowLine r w1 w2)) ∧
      ("Sentence" : String).data <+: (headerLine w1 w2).data ∧
      ("Sentiment" : String).data <:+: (headerLine w1 w2).data ∧
      ∀ r ∈ [({ Sentence := "x", Sentiment := "positive" } : SentimentRecord)],
        r.Sentence.data <+: (rowLine r w1 w2).data ∧
        r.Sentiment.data <:+: (rowLine r w1 w2).data :=
  no_truncation [{ Sentence := "x", Sentiment := "positive" }] (List.cons_ne_nil _ _) "hello" 3
